import Mathlib

/-!
Shallow embedding of the remote-execution core of the `contest` repository:

* `HsiSet` embeds `plugins/teststeps/hsi/main.go`, package `bios_settings_set`
  (the per-target runner `Run`/`runSet`, the output collector
  `getOutputFromReader`/`readBuffer`, the stderr parser `parseSetOutput`,
  and the event emission helper `emitEvent` from
  `plugins/teststeps/hwaas/events.go`).
* `ConTestHTTP` embeds the HTTP API transport client (package `http`,
  `HTTP.request` and the verb methods `Version`, `Start`, `Stop`, `Status`,
  `Retry`, `List`).

External collaborators (the session transport, `encoding/json`, `net/url`,
`net/http`, the event bus emitter, parameter expansion) are modelled as
oracle fields of explicit world structures: each Go call into a collaborator
becomes a lookup of the corresponding oracle field, and the embedded control
flow around those lookups is translated line by line from the source.
Go `error` values are modelled as `Option String` (`none` = `nil`),
Go `(value, error)` pairs where exactly one side is meaningful as
`Except String value`, and byte slices as `String`.
-/

namespace HsiSet

/-- Structured error decoded from stderr (Go struct `Error{ Msg string }`,
field tag `json:"error"`). -/
structure Error where
  msg : String
  deriving Repr, DecidableEq

/-- Go const `supportedProto`. -/
def supportedProto : String := "ssh"

/-- Go const `privileged`. -/
def privileged : String := "sudo"

/-- Go const `cmd`. -/
def wmiCmd : String := "wmi"

/-- Go const `jsonFlag`. -/
def jsonFlag : String := "--json"

/-- The single hard-coded benign-precondition message tolerated by
`parseSetOutput` under the `ShallFail` flag. -/
def lockedMsg : String := "BIOS options are locked, needs unlocking."

/-- Modelled from the spec: the transport part of `inputStepParams`
(its Go definition is outside this excerpt; the fields are those read by
`Run`/`runSet`: the protocol name and opaque protocol options). -/
structure TransportCfg where
  proto : String
  options : String
  deriving Repr, DecidableEq

/-- Modelled from the spec: the parameter part of `inputStepParams`
(fields read by `Run`/`runSet`: tool path, credentials, BIOS option/value,
and the tolerate-expected-failure flag `ShallFail`). -/
structure Parameter where
  toolPath : String
  password : String
  keyPath : String
  option : String
  value : String
  shallFail : Bool
  deriving Repr, DecidableEq

/-- Modelled from the spec: the expanded step parameters `inputStepParams`. -/
structure InputStepParams where
  transport : TransportCfg
  parameter : Parameter
  deriving Repr, DecidableEq

/-- `parseSetOutput(stderr, fail)`, parameterised over `json.Unmarshal`
into `Error` (the `unmarshal` oracle; `.ok` is a successful decode of the
bytes into the struct, `.error` the unmarshal error's message).
`none` is Go `nil` (success). -/
def parseSetOutput (unmarshal : String → Except String Error)
    (stderr : String) (fail : Bool) : Option String :=
  match (if stderr.length ≠ 0 then unmarshal stderr else .ok ⟨""⟩) with
  | .error e => some ("failed to unmarshal stderr: " ++ e)
  | .ok err =>
    if err.msg ≠ "" then
      if err.msg = lockedMsg ∧ fail then none
      else if err.msg ≠ "" then some err.msg
      else none
    else none

/-- An `io.Reader` as observed through one full `io.Copy`: the bytes that
were transferred into the buffer, and the error `io.Copy` returned
(`none` = `nil`). -/
structure Reader where
  data : String
  copyErr : Option String
  deriving Repr, DecidableEq

/-- Stands for the identity of the sentinel error `io.EOF` when comparing
the `io.Copy` error against it. -/
def ioEOF : String := "EOF"

/-- `readBuffer(r)`: copy the reader into a buffer; an error other than
`io.EOF` is returned (with a `nil` slice), otherwise the buffer's bytes. -/
def readBuffer (r : Reader) : Except String String :=
  match r.copyErr with
  | some e => if e = ioEOF then .ok r.data else .error e
  | none => .ok r.data

/-- `getOutputFromReader(stdout, stderr)`: drain both streams independently;
a read error is logged (not modelled) and yields a `nil` (here: empty)
buffer, never an error to the caller. -/
def getOutputFromReader (stdout stderr : Reader) : String × String :=
  let outBuffer := match readBuffer stdout with
    | .ok b => b
    | .error _ => ""
  let errBuffer := match readBuffer stderr with
    | .ok b => b
    | .error _ => ""
  (outBuffer, errBuffer)

/-- Go const `EventStdout` (event name). -/
def EventStdout : String := "Stdout"

/-- Go const `EventStderr` (event name). -/
def EventStderr : String := "Stderr"

/-- One event as handed to the event bus: the event name, the target the
event is tagged to, and the `Msg` field of the `eventPayload`; the wire
payload is the JSON marshalling of that `Msg` (the `marshal` oracle). -/
structure EmittedEvent where
  name : String
  target : String
  msg : String
  deriving Repr, DecidableEq

/-- The collaborators one `runSet` call touches, as oracles:
`newProcess` is `transport.NewProcess` (argument: privilege wrapper and
argv; `none` = success), `stdoutPipe`/`stderrPipe` the pipe acquisitions,
`startResult`/`waitResult` the process lifecycle, the two `Reader`s the
pipes' contents, `unmarshal`/`marshal` the `encoding/json` calls, and
`emit` the event bus `ev.Emit` (`none` = success). -/
structure ProcWorld where
  newProcess : String → List String → Option String
  stdoutPipe : Option String
  stderrPipe : Option String
  startResult : Option String
  waitResult : Option String
  stdoutReader : Reader
  stderrReader : Reader
  unmarshal : String → Except String Error
  marshal : String → Except String String
  emit : EmittedEvent → Option String

/-- The `authString` computation at the head of `runSet`: password takes
precedence over the key path. -/
def authString (p : Parameter) : String :=
  if p.password ≠ "" then "--password=" ++ p.password
  else if p.keyPath ≠ "" then "--private-key=" ++ p.keyPath
  else ""

/-- The argv handed to `transport.NewProcess` by `runSet`. -/
def setArgv (p : Parameter) : List String :=
  [p.toolPath, wmiCmd, "set",
   "--option=" ++ p.option,
   "--value=" ++ p.value,
   authString p,
   jsonFlag]

/-- `emitEvent(ctx, name, payload, tgt, ev)`: marshal the payload, then
hand the event to the bus; either failure is wrapped and returned. -/
def emitEvent (w : ProcWorld) (name : String) (msg : String) (tgt : String) :
    Option String :=
  match w.marshal msg with
  | .error e => some ("cannot marshal payload for event " ++ name ++ ": " ++ e)
  | .ok _ =>
    match w.emit ⟨name, tgt, msg⟩ with
    | some e => some ("cannot emit event EventCmdStart: " ++ e)
    | none => none

/-- The pair `(outcome, err)` returned by `runSet`, plus (as observable
instrumentation, not part of the Go return value) the list of events that
were successfully handed to the event bus, in emission order. -/
structure RunSetResult where
  outcome : Option String
  err : Option String
  events : List EmittedEvent
  deriving Repr, DecidableEq

/-- `runSet(ctx, target, transport, params)`, translated branch by branch:
process/pipe construction failures return through `err` with a `nil`
outcome; otherwise `outcome` is `Start`, or `Wait` when `Start` is `nil`;
the streams are drained; stderr is parsed (a parse error returns through
`err`); then one event per stream is emitted, an emission failure
returning through `err`. -/
def runSet (w : ProcWorld) (tgt : String) (params : InputStepParams) :
    RunSetResult :=
  match w.newProcess privileged (setArgv params.parameter) with
  | some e => ⟨none, some ("failed to create process: " ++ e), []⟩
  | none =>
  match w.stdoutPipe with
  | some e => ⟨none, some ("failed to pipe stdout: " ++ e), []⟩
  | none =>
  match w.stderrPipe with
  | some e => ⟨none, some ("failed to pipe stderr: " ++ e), []⟩
  | none =>
    let outcome := match w.startResult with
      | some e => some e
      | none => w.waitResult
    let out := getOutputFromReader w.stdoutReader w.stderrReader
    match parseSetOutput w.unmarshal out.2 params.parameter.shallFail with
    | some e => ⟨none, some e, []⟩
    | none =>
      match emitEvent w EventStdout out.1 tgt with
      | some e => ⟨none, some ("cannot emit event: " ++ e), []⟩
      | none =>
        match emitEvent w EventStderr out.2 tgt with
        | some e => ⟨none, some ("cannot emit event: " ++ e),
                     [⟨EventStdout, tgt, out.1⟩]⟩
        | none => ⟨outcome, none,
                   [⟨EventStdout, tgt, out.1⟩, ⟨EventStderr, tgt, out.2⟩]⟩

/-- The value `outcome` holds after the `Start`/`Wait` ladder when the
launch succeeded (the execution result of the remote command). -/
def execOutcome (w : ProcWorld) : Option String :=
  match w.startResult with
  | some e => some e
  | none => w.waitResult

/-- Whether one of the three pre-launch steps of `runSet` (process
construction, stdout pipe, stderr pipe) failed: the launch-error cases. -/
def launchFailed (w : ProcWorld) (p : Parameter) : Bool :=
  (w.newProcess privileged (setArgv p)).isSome
    || w.stdoutPipe.isSome || w.stderrPipe.isSome

/-- The collaborators `Run` touches before `runSet`: parameter expansion
(`pe.ExpandObject`) and `transport.NewTransport` (`none` = success);
`proc` is the world `runSet` then runs in.  The timeout/cancellation
plumbing at the head of `Run` is concurrency and is not modelled. -/
structure RunWorld where
  expand : Except String InputStepParams
  newTransport : Option String
  proc : ProcWorld

/-- The error `Run` returns (`none` = `nil`), the events emitted during the
run, and (instrumentation) whether control reached the
`transport.NewTransport` call. -/
structure RunResult where
  ret : Option String
  events : List EmittedEvent
  transportAttempted : Bool
  deriving Repr, DecidableEq

/-- `TargetRunner.Run(ctx, target)`: expansion, the three validations
(protocol name, credentials, option/value), transport construction, then
`runSet`; `Run` returns `err` when `runSet` failed, else the outcome. -/
def Run (w : RunWorld) (tgt : String) : RunResult :=
  match w.expand with
  | .error e => ⟨some e, [], false⟩
  | .ok params =>
    if params.transport.proto ≠ supportedProto then
      ⟨some "only ssh is supported as protocol in this teststep", [], false⟩
    else if params.parameter.password = "" ∧ params.parameter.keyPath = "" then
      ⟨some "password or certificate file must be set", [], false⟩
    else if params.parameter.option = "" ∨ params.parameter.value = "" then
      ⟨some "bios option and value must be set", [], false⟩
    else
      match w.newTransport with
      | some e => ⟨some ("failed to create transport: " ++ e), [], true⟩
      | none =>
        let r := runSet w.proc tgt params
        match r.err with
        | some e => ⟨some e, r.events, true⟩
        | none => ⟨r.outcome, r.events, true⟩

end HsiSet

namespace ConTestHTTP

/-- The outcome of `url.Parse` as `request` reads it: the URL's scheme and
path (the other components are not consulted by this code). -/
structure GoURL where
  scheme : String
  path : String
  deriving Repr, DecidableEq

/-- The URL string handed to `http.PostForm` (`u.String()`), abbreviated to
scheme and path. -/
def urlString (u : GoURL) : String :=
  u.scheme ++ "://" ++ u.path

/-- `HTTPPartiallyDecodedResponse`: the listener's response with `Data`
still raw (`json.RawMessage` as a string); `err` models the
`*xjson.Error` field as the wrapped message. -/
structure PartialResp where
  serverID : String
  typ : String
  data : String
  err : Option String
  deriving Repr, DecidableEq

/-- One raw HTTP response: the status code and the result of reading the
body (`ioutil.ReadAll` may fail). -/
structure RawHTTPResponse where
  statusCode : Nat
  body : Except String String
  deriving Repr

/-- Modelled from the spec: `api.ResponseDataVersion`, the version verb's
typed data; its fields are external to this excerpt and abstracted to one
placeholder field, whose zero value stands for the Go zero value. -/
structure ResponseDataVersion where
  payload : String
  deriving Repr, DecidableEq

/-- Modelled from the spec: `api.ResponseDataStart` (see
`ResponseDataVersion`). -/
structure ResponseDataStart where
  payload : String
  deriving Repr, DecidableEq

/-- Modelled from the spec: `api.ResponseDataStop` (see
`ResponseDataVersion`). -/
structure ResponseDataStop where
  payload : String
  deriving Repr, DecidableEq

/-- Modelled from the spec: `api.ResponseDataStatus` (see
`ResponseDataVersion`). -/
structure ResponseDataStatus where
  payload : String
  deriving Repr, DecidableEq

/-- Modelled from the spec: `api.ResponseDataRetry` (see
`ResponseDataVersion`). -/
structure ResponseDataRetry where
  payload : String
  deriving Repr, DecidableEq

/-- Modelled from the spec: `api.ResponseDataList` (see
`ResponseDataVersion`). -/
structure ResponseDataList where
  payload : String
  deriving Repr, DecidableEq

/-- The Go zero value `api.ResponseDataVersion{}`. -/
def zeroDataVersion : ResponseDataVersion := ⟨""⟩

/-- The Go zero value `api.ResponseDataStart{}`. -/
def zeroDataStart : ResponseDataStart := ⟨""⟩

/-- The Go zero value `api.ResponseDataStop{}`. -/
def zeroDataStop : ResponseDataStop := ⟨""⟩

/-- The Go zero value `api.ResponseDataStatus{}`. -/
def zeroDataStatus : ResponseDataStatus := ⟨""⟩

/-- The Go zero value `api.ResponseDataRetry{}`. -/
def zeroDataRetry : ResponseDataRetry := ⟨""⟩

/-- The Go zero value (declared `var data api.ResponseDataList`). -/
def zeroDataList : ResponseDataList := ⟨""⟩

/-- `api.VersionResponse`. -/
structure VersionResponse where
  serverID : String
  data : ResponseDataVersion
  err : Option String
  deriving Repr, DecidableEq

/-- `api.StartResponse`. -/
structure StartResponse where
  serverID : String
  data : ResponseDataStart
  err : Option String
  deriving Repr, DecidableEq

/-- `api.StopResponse`. -/
structure StopResponse where
  serverID : String
  data : ResponseDataStop
  err : Option String
  deriving Repr, DecidableEq

/-- `api.StatusResponse`. -/
structure StatusResponse where
  serverID : String
  data : ResponseDataStatus
  err : Option String
  deriving Repr, DecidableEq

/-- `api.RetryResponse`. -/
structure RetryResponse where
  serverID : String
  data : ResponseDataRetry
  err : Option String
  deriving Repr, DecidableEq

/-- `api.ListResponse`. -/
structure ListResponse where
  serverID : String
  data : ResponseDataList
  err : Option String
  deriving Repr, DecidableEq

/-- The collaborators of the HTTP client, as oracles: `parseURL` is
`url.Parse` (restricted to the fields read), `postForm` is `http.PostForm`
plus the body read, `decodeResp` is `json.Unmarshal` into
`HTTPPartiallyDecodedResponse`, `decodeAPIError` into
`httplistener.HTTPAPIError` (returning its `Msg`), and the six
`decodeData*` oracles are `json.Unmarshal` of a raw `Data` field into the
respective verb's typed data. -/
structure HttpWorld where
  parseURL : String → Except String GoURL
  postForm : String → List (String × String) → Except String RawHTTPResponse
  decodeResp : String → Except String PartialResp
  decodeAPIError : String → Except String String
  decodeDataVersion : String → Except String ResponseDataVersion
  decodeDataStart : String → Except String ResponseDataStart
  decodeDataStop : String → Except String ResponseDataStop
  decodeDataStatus : String → Except String ResponseDataStatus
  decodeDataRetry : String → Except String ResponseDataRetry
  decodeDataList : String → Except String ResponseDataList

/-- `url.Values.Set(k, v)`: replace any binding of `k` with the single
value `v`. -/
def setValue (ps : List (String × String)) (k v : String) :
    List (String × String) :=
  (ps.filter (fun kv => kv.1 ≠ k)) ++ [(k, v)]

/-- `url.Values.Add(k, v)`. -/
def addValue (ps : List (String × String)) (k v : String) :
    List (String × String) :=
  ps ++ [(k, v)]

/-- The `(resp, err)` returned by `request`, plus (instrumentation) whether
the `http.PostForm` network call was reached. -/
structure RequestOutcome where
  result : Except String PartialResp
  posted : Bool

/-- `HTTP.request(ctx, requestor, verb, params)`: tag the params with the
requestor, parse and validate the base address (scheme present, http or
https only) before any network action, POST to `<base>/<verb>`, read the
body, then decode: a 200 body as a partially decoded response, a non-200
body as the structured error object `Msg`, wrapped (via
`xjson.NewError`) into the `Error` field of an otherwise zero response. -/
def request (w : HttpWorld) (addr requestor verb : String)
    (params : List (String × String)) : RequestOutcome :=
  let params := setValue params "requestor" requestor
  match w.parseURL addr with
  | .error e =>
    ⟨.error ("failed to parse server address " ++ addr ++ ": " ++ e), false⟩
  | .ok u =>
    if u.scheme = "" then
      ⟨.error "server URL scheme not specified", false⟩
    else if u.scheme ≠ "http" ∧ u.scheme ≠ "https" then
      ⟨.error ("unsupported URL scheme " ++ u.scheme
        ++ ", please specify either http or https"), false⟩
    else
      let u2 : GoURL := { u with path := u.path ++ "/" ++ verb }
      match w.postForm (urlString u2) params with
      | .error e => ⟨.error ("HTTP POST failed: " ++ e), true⟩
      | .ok raw =>
        match raw.body with
        | .error e => ⟨.error ("cannot read HTTP response: " ++ e), true⟩
        | .ok body =>
          if raw.statusCode = 200 then
            match w.decodeResp body with
            | .error e =>
              ⟨.error ("response is not a valid HTTP API response object: "
                ++ body ++ ": " ++ e), true⟩
            | .ok r => ⟨.ok r, true⟩
          else
            match w.decodeAPIError body with
            | .error e =>
              ⟨.error ("response is not a valid HTTP API Error object: "
                ++ body ++ ": " ++ e), true⟩
            | .ok msg =>
              ⟨.ok { serverID := "", typ := "", data := "", err := some msg },
               true⟩

/-- `HTTP.Version(ctx, requestor)`. -/
def Version (w : HttpWorld) (addr requestor : String) :
    Except String VersionResponse :=
  match (request w addr requestor "version" []).result with
  | .error e => .error e
  | .ok resp =>
    if resp.data ≠ "" then
      match w.decodeDataVersion resp.data with
      | .error e => .error ("cannot decode json response: " ++ e)
      | .ok d => .ok ⟨resp.serverID, d, resp.err⟩
    else .ok ⟨resp.serverID, zeroDataVersion, resp.err⟩

/-- `HTTP.Start(ctx, requestor, jobDescriptor)`. -/
def Start (w : HttpWorld) (addr requestor jobDescriptor : String) :
    Except String StartResponse :=
  match (request w addr requestor "start"
      (addValue [] "jobDesc" jobDescriptor)).result with
  | .error e => .error e
  | .ok resp =>
    if resp.data ≠ "" then
      match w.decodeDataStart resp.data with
      | .error e => .error ("cannot decode json response: " ++ e)
      | .ok d => .ok ⟨resp.serverID, d, resp.err⟩
    else .ok ⟨resp.serverID, zeroDataStart, resp.err⟩

/-- `HTTP.Stop(ctx, requestor, jobID)`. -/
def Stop (w : HttpWorld) (addr requestor : String) (jobID : Int) :
    Except String StopResponse :=
  match (request w addr requestor "stop"
      (addValue [] "jobID" (toString jobID))).result with
  | .error e => .error e
  | .ok resp =>
    if resp.data ≠ "" then
      match w.decodeDataStop resp.data with
      | .error e => .error ("cannot decode json response: " ++ e)
      | .ok d => .ok ⟨resp.serverID, d, resp.err⟩
    else .ok ⟨resp.serverID, zeroDataStop, resp.err⟩

/-- `HTTP.Status(ctx, requestor, jobID)`. -/
def Status (w : HttpWorld) (addr requestor : String) (jobID : Int) :
    Except String StatusResponse :=
  match (request w addr requestor "status"
      (addValue [] "jobID" (toString jobID))).result with
  | .error e => .error e
  | .ok resp =>
    if resp.data ≠ "" then
      match w.decodeDataStatus resp.data with
      | .error e => .error ("cannot decode json response: " ++ e)
      | .ok d => .ok ⟨resp.serverID, d, resp.err⟩
    else .ok ⟨resp.serverID, zeroDataStatus, resp.err⟩

/-- `HTTP.Retry(ctx, requestor, jobID)`. -/
def Retry (w : HttpWorld) (addr requestor : String) (jobID : Int) :
    Except String RetryResponse :=
  match (request w addr requestor "retry"
      (addValue [] "jobID" (toString jobID))).result with
  | .error e => .error e
  | .ok resp =>
    if resp.data ≠ "" then
      match w.decodeDataRetry resp.data with
      | .error e => .error ("cannot decode json response: " ++ e)
      | .ok d => .ok ⟨resp.serverID, d, resp.err⟩
    else .ok ⟨resp.serverID, zeroDataRetry, resp.err⟩

/-- The `url.Values` built by `HTTP.List` from the (already stringified)
states and the tags, comma-joined, each set only when non-empty. -/
def listParams (states tags : List String) : List (String × String) :=
  let ps : List (String × String) := []
  let ps := if states.length > 0 then
      setValue ps "states" (String.intercalate "," states)
    else ps
  if tags.length > 0 then setValue ps "tags" (String.intercalate "," tags)
  else ps

/-- `HTTP.List(ctx, requestor, states, tags)` (named `ListJobs` here
because `List` is the core list type; `job.State.String()` is modelled by
passing the states already as strings). -/
def ListJobs (w : HttpWorld) (addr requestor : String)
    (states tags : List String) : Except String ListResponse :=
  match (request w addr requestor "list" (listParams states tags)).result with
  | .error e => .error e
  | .ok resp =>
    if resp.data ≠ "" then
      match w.decodeDataList resp.data with
      | .error e => .error ("cannot decode json response: " ++ e)
      | .ok d => .ok ⟨resp.serverID, d, resp.err⟩
    else .ok ⟨resp.serverID, zeroDataList, resp.err⟩

end ConTestHTTP

namespace HsiSet

/-- The stdout buffer `runSet` captures (first component of
`getOutputFromReader`). -/
def capturedStdout (w : ProcWorld) : String :=
  (getOutputFromReader w.stdoutReader w.stderrReader).1

/-- The stderr buffer `runSet` captures (second component of
`getOutputFromReader`). -/
def capturedStderr (w : ProcWorld) : String :=
  (getOutputFromReader w.stdoutReader w.stderrReader).2

/-- Concrete parameters used by witnesses: one credential, option and
value set. -/
def sampleParameter : Parameter :=
  ⟨"/usr/sbin/bios-tool", "pw", "", "Opt", "Val", false⟩

/-- Concrete expanded step parameters used by witnesses. -/
def sampleParams : InputStepParams := ⟨⟨"ssh", ""⟩, sampleParameter⟩

/-- A world in which every collaborator succeeds: launch, streams, event
bus; stderr is empty so the parser finds no domain error. -/
def okProcWorld : ProcWorld where
  newProcess := fun _ _ => none
  stdoutPipe := none
  stderrPipe := none
  startResult := none
  waitResult := none
  stdoutReader := ⟨"settings applied", none⟩
  stderrReader := ⟨"", none⟩
  unmarshal := fun _ => .error "unexpected"
  marshal := fun s => .ok s
  emit := fun _ => none

/-- Like `okProcWorld` but process construction fails (a launch error). -/
def launchFailWorld : ProcWorld :=
  { okProcWorld with newProcess := fun _ _ => some "connection refused" }

/-- Like `okProcWorld` but stderr carries a structured error whose decoded
message is a (non-benign) domain error. -/
def domainErrWorld : ProcWorld :=
  { okProcWorld with
    stderrReader := ⟨"errbody", none⟩
    unmarshal := fun s =>
      if s = "errbody" then .ok ⟨"flash write failed"⟩
      else .error "unexpected" }

/-- A run whose expansion and transport construction succeed, over
`okProcWorld`. -/
def okRunWorld : RunWorld := ⟨.ok sampleParams, none, okProcWorld⟩

/-- A run over `launchFailWorld`. -/
def launchFailRunWorld : RunWorld := ⟨.ok sampleParams, none, launchFailWorld⟩

/-- A run over `domainErrWorld`. -/
def domainErrRunWorld : RunWorld := ⟨.ok sampleParams, none, domainErrWorld⟩

/-- Parameters with both the password and the key path populated. -/
def bothCredsParams : InputStepParams :=
  ⟨⟨"ssh", ""⟩, ⟨"/usr/sbin/bios-tool", "pw", "/root/key", "Opt", "Val", false⟩⟩

/-- A run over `okProcWorld` with both credentials populated. -/
def bothCredsRunWorld : RunWorld := ⟨.ok bothCredsParams, none, okProcWorld⟩

/-- Parameters whose BIOS option field is empty (a validation failure). -/
def noOptionParams : InputStepParams :=
  ⟨⟨"ssh", ""⟩, ⟨"/usr/sbin/bios-tool", "pw", "", "", "Val", false⟩⟩

/-- A run over `okProcWorld` with an empty option field. -/
def noOptionRunWorld : RunWorld := ⟨.ok noOptionParams, none, okProcWorld⟩

end HsiSet

namespace ConTestHTTP

/-- The error message `request` returns when the base URL's scheme fails
validation (empty, or neither http nor https). -/
def schemeMsg (u : GoURL) : String :=
  if u.scheme = "" then "server URL scheme not specified"
  else "unsupported URL scheme " ++ u.scheme
    ++ ", please specify either http or https"

/-- A world whose base address parses with no scheme (`url.Parse` of
`example.com` yields an empty scheme and the address as path); the
network and decode oracles would all succeed if reached. -/
def noSchemeWorld : HttpWorld where
  parseURL := fun s => .ok ⟨"", s⟩
  postForm := fun _ _ => .ok ⟨200, .ok "body"⟩
  decodeResp := fun _ => .error "unexpected"
  decodeAPIError := fun _ => .error "unexpected"
  decodeDataVersion := fun _ => .error "unexpected"
  decodeDataStart := fun _ => .error "unexpected"
  decodeDataStop := fun _ => .error "unexpected"
  decodeDataStatus := fun _ => .error "unexpected"
  decodeDataRetry := fun _ => .error "unexpected"
  decodeDataList := fun _ => .error "unexpected"

/-- A world whose server always answers status 500 with a body that
decodes as the structured error object with message `job not found`. -/
def error500World : HttpWorld where
  parseURL := fun s => .ok ⟨"http", s⟩
  postForm := fun _ _ => .ok ⟨500, .ok "errbody"⟩
  decodeResp := fun _ => .error "unexpected"
  decodeAPIError := fun s =>
    if s = "errbody" then .ok "job not found" else .error "unexpected"
  decodeDataVersion := fun _ => .error "unexpected"
  decodeDataStart := fun _ => .error "unexpected"
  decodeDataStop := fun _ => .error "unexpected"
  decodeDataStatus := fun _ => .error "unexpected"
  decodeDataRetry := fun _ => .error "unexpected"
  decodeDataList := fun _ => .error "unexpected"

/-- The partially decoded response used by the empty-`Data` witness. -/
def emptyDataResp : PartialResp :=
  ⟨"server1", "ResponseTypeVersion", "", none⟩

/-- A world whose server always answers 200 with a body that decodes to a
response whose `Data` field is empty; every `Data` decode oracle fails, so
any attempt to unmarshal `Data` would surface as a decode error. -/
def emptyDataWorld : HttpWorld where
  parseURL := fun s => .ok ⟨"https", s⟩
  postForm := fun _ _ => .ok ⟨200, .ok "okbody"⟩
  decodeResp := fun s =>
    if s = "okbody" then .ok emptyDataResp else .error "unexpected"
  decodeAPIError := fun _ => .error "unexpected"
  decodeDataVersion := fun _ => .error "must not be called"
  decodeDataStart := fun _ => .error "must not be called"
  decodeDataStop := fun _ => .error "must not be called"
  decodeDataStatus := fun _ => .error "must not be called"
  decodeDataRetry := fun _ => .error "must not be called"
  decodeDataList := fun _ => .error "must not be called"

end ConTestHTTP

/-- C2: for every non-empty stderr input that decodes to a structured error
with a non-empty message, `parseSetOutput` returns success exactly when the
message is the benign locked-state string and the tolerate flag is set, and
otherwise returns an error whose text is exactly the decoded message. -/
theorem hsi_parse_benign_policy_c2
    (unmarshal : String → Except String HsiSet.Error)
    (stderr m : String) (fail : Bool)
    (hne : stderr.length ≠ 0)
    (hdec : unmarshal stderr = .ok ⟨m⟩)
    (hm : m ≠ "") :
    ((m = HsiSet.lockedMsg ∧ fail = true) →
      HsiSet.parseSetOutput unmarshal stderr fail = none) ∧
    ((m ≠ HsiSet.lockedMsg ∨ fail = false) →
      HsiSet.parseSetOutput unmarshal stderr fail = some m) := by
  unfold HsiSet.parseSetOutput
  rw [if_pos hne, hdec]
  constructor
  · rintro ⟨hml, hf⟩
    subst hml hf
    simp [hm]
  · rintro (hml | hf)
    · simp [hm, hml]
    · subst hf
      simp [hm]

/-- Witness for C2: both policy branches at concrete inputs. -/
theorem hsi_parse_benign_policy_c2_witness :
    HsiSet.parseSetOutput (fun _ => .ok ⟨HsiSet.lockedMsg⟩) "x" true = none ∧
    HsiSet.parseSetOutput (fun _ => .ok ⟨HsiSet.lockedMsg⟩) "x" false
      = some HsiSet.lockedMsg :=
  ⟨(hsi_parse_benign_policy_c2 (fun _ => .ok ⟨HsiSet.lockedMsg⟩) "x"
      HsiSet.lockedMsg true (by decide) rfl (by decide)).1 ⟨rfl, rfl⟩,
   (hsi_parse_benign_policy_c2 (fun _ => .ok ⟨HsiSet.lockedMsg⟩) "x"
      HsiSet.lockedMsg false (by decide) rfl (by decide)).2 (Or.inr rfl)⟩

/-- C7: for every non-empty stderr input on which the structured-error
decode fails, `parseSetOutput` returns the wrapped decode error (never a
silent success), for either value of the tolerate flag. -/
theorem hsi_parse_decode_error_c7
    (unmarshal : String → Except String HsiSet.Error)
    (stderr e : String) (fail : Bool)
    (hne : stderr.length ≠ 0)
    (hdec : unmarshal stderr = .error e) :
    HsiSet.parseSetOutput unmarshal stderr fail
      = some ("failed to unmarshal stderr: " ++ e) := by
  unfold HsiSet.parseSetOutput
  rw [if_pos hne, hdec]

/-- Witness for C7 at a concrete malformed input. -/
theorem hsi_parse_decode_error_c7_witness :
    HsiSet.parseSetOutput (fun _ => .error "invalid character") "garbage" true
      = some "failed to unmarshal stderr: invalid character" :=
  hsi_parse_decode_error_c7 (fun _ => .error "invalid character")
    "garbage" "invalid character" true (by decide) rfl

/-- C9: `parseSetOutput` is deterministic: two parses of equal byte
sequences under equal tolerate flags (against the same decoder) yield the
same classification. -/
theorem hsi_parse_deterministic_c9
    (unmarshal : String → Except String HsiSet.Error)
    (s1 s2 : String) (f1 f2 : Bool)
    (hs : s1 = s2) (hf : f1 = f2) :
    HsiSet.parseSetOutput unmarshal s1 f1
      = HsiSet.parseSetOutput unmarshal s2 f2 := by
  rw [hs, hf]

/-- Witness for C9 at a concrete input parsed twice. -/
theorem hsi_parse_deterministic_c9_witness :
    HsiSet.parseSetOutput (fun _ => .ok ⟨"boom"⟩) "payload" false
      = HsiSet.parseSetOutput (fun _ => .ok ⟨"boom"⟩) "payload" false :=
  hsi_parse_deterministic_c9 (fun _ => .ok ⟨"boom"⟩)
    "payload" "payload" false false rfl rfl

/-- C8: `getOutputFromReader` always returns two byte buffers and never
propagates a read error: a failing stream yields the empty (Go: `nil`)
buffer, a succeeding stream yields exactly the bytes `readBuffer` drained
from it, independently for stdout and stderr. -/
theorem hsi_output_reader_total_c8 (r1 r2 : HsiSet.Reader) :
    (∀ e, HsiSet.readBuffer r1 = .error e →
      (HsiSet.getOutputFromReader r1 r2).1 = "") ∧
    (∀ b, HsiSet.readBuffer r1 = .ok b →
      (HsiSet.getOutputFromReader r1 r2).1 = b) ∧
    (∀ e, HsiSet.readBuffer r2 = .error e →
      (HsiSet.getOutputFromReader r1 r2).2 = "") ∧
    (∀ b, HsiSet.readBuffer r2 = .ok b →
      (HsiSet.getOutputFromReader r1 r2).2 = b) := by
  unfold HsiSet.getOutputFromReader
  refine ⟨fun e he => ?_, fun b hb => ?_, fun e he => ?_, fun b hb => ?_⟩
  · simp [he]
  · simp [hb]
  · simp [he]
  · simp [hb]

/-- Witness for C8: a stdout read error with a healthy stderr stream. -/
theorem hsi_output_reader_total_c8_witness :
    (HsiSet.getOutputFromReader ⟨"partial", some "reset"⟩ ⟨"errtext", none⟩).1
       = "" ∧
    (HsiSet.getOutputFromReader ⟨"partial", some "reset"⟩ ⟨"errtext", none⟩).2
       = "errtext" :=
  ⟨(hsi_output_reader_total_c8 ⟨"partial", some "reset"⟩ ⟨"errtext", none⟩).1
      "reset" (by simp [HsiSet.readBuffer, HsiSet.ioEOF]),
   (hsi_output_reader_total_c8 ⟨"partial", some "reset"⟩
      ⟨"errtext", none⟩).2.2.2 "errtext" rfl⟩

/-- Helper: a false `launchFailed` flag means all three pre-launch steps
succeeded. -/
lemma launchFailed_false_elim (w : HsiSet.ProcWorld) (p : HsiSet.Parameter)
    (h : HsiSet.launchFailed w p = false) :
    w.newProcess HsiSet.privileged (HsiSet.setArgv p) = none ∧
      w.stdoutPipe = none ∧ w.stderrPipe = none := by
  unfold HsiSet.launchFailed at h
  rcases hnp : w.newProcess HsiSet.privileged (HsiSet.setArgv p) with _ | e <;>
    rcases hsp : w.stdoutPipe with _ | e2 <;>
      rcases hep : w.stderrPipe with _ | e3 <;>
        simp_all

/-- Helper: a true `launchFailed` flag makes `runSet` return through the
error component, with no outcome and no events. -/
lemma runSet_launchFailed_shape (w : HsiSet.ProcWorld) (tgt : String)
    (params : HsiSet.InputStepParams)
    (h : HsiSet.launchFailed w params.parameter = true) :
    ∃ e, HsiSet.runSet w tgt params = ⟨none, some e, []⟩ := by
  rcases hnp : w.newProcess HsiSet.privileged
      (HsiSet.setArgv params.parameter) with _ | e
  · rcases hsp : w.stdoutPipe with _ | e2
    · rcases hep : w.stderrPipe with _ | e3
      · exfalso
        simp [HsiSet.launchFailed, hnp, hsp, hep] at h
      · exact ⟨"failed to pipe stderr: " ++ e3,
          by unfold HsiSet.runSet; rw [hnp, hsp, hep]⟩
    · exact ⟨"failed to pipe stdout: " ++ e2,
        by unfold HsiSet.runSet; rw [hnp, hsp]⟩
  · exact ⟨"failed to create process: " ++ e,
      by unfold HsiSet.runSet; rw [hnp]⟩

/-- Helper: once the three pre-launch steps succeed, `runSet` is the
parse-then-emit ladder over the captured output, returning the
`Start`/`Wait` outcome at the end. -/
lemma runSet_launched_eq (w : HsiSet.ProcWorld) (tgt : String)
    (params : HsiSet.InputStepParams)
    (h1 : w.newProcess HsiSet.privileged (HsiSet.setArgv params.parameter) = none)
    (h2 : w.stdoutPipe = none) (h3 : w.stderrPipe = none) :
    HsiSet.runSet w tgt params =
      match HsiSet.parseSetOutput w.unmarshal (HsiSet.capturedStderr w)
          params.parameter.shallFail with
      | some e => ⟨none, some e, []⟩
      | none =>
        match HsiSet.emitEvent w HsiSet.EventStdout
            (HsiSet.capturedStdout w) tgt with
        | some e => ⟨none, some ("cannot emit event: " ++ e), []⟩
        | none =>
          match HsiSet.emitEvent w HsiSet.EventStderr
              (HsiSet.capturedStderr w) tgt with
          | some e => ⟨none, some ("cannot emit event: " ++ e),
              [⟨HsiSet.EventStdout, tgt, HsiSet.capturedStdout w⟩]⟩
          | none => ⟨HsiSet.execOutcome w, none,
              [⟨HsiSet.EventStdout, tgt, HsiSet.capturedStdout w⟩,
               ⟨HsiSet.EventStderr, tgt, HsiSet.capturedStderr w⟩]⟩ := by
  unfold HsiSet.runSet HsiSet.execOutcome HsiSet.capturedStdout
    HsiSet.capturedStderr
  rw [h1, h2, h3]

/-- Helper: in every branch of `runSet`, the outcome and the error
component are never both populated. -/
lemma runSet_outcome_err_exclusive (w : HsiSet.ProcWorld) (tgt : String)
    (params : HsiSet.InputStepParams) :
    ¬((HsiSet.runSet w tgt params).outcome.isSome
        ∧ (HsiSet.runSet w tgt params).err.isSome) := by
  cases hl : HsiSet.launchFailed w params.parameter
  · obtain ⟨h1, h2, h3⟩ := launchFailed_false_elim w params.parameter hl
    rw [runSet_launched_eq w tgt params h1 h2 h3]
    rcases hp : HsiSet.parseSetOutput w.unmarshal (HsiSet.capturedStderr w)
        params.parameter.shallFail with _ | e
    · rcases he1 : HsiSet.emitEvent w HsiSet.EventStdout
          (HsiSet.capturedStdout w) tgt with _ | e
      · rcases he2 : HsiSet.emitEvent w HsiSet.EventStderr
            (HsiSet.capturedStderr w) tgt with _ | e
        · simp
        · simp
      · simp
    · simp
  · obtain ⟨e, hrs⟩ := runSet_launchFailed_shape w tgt params hl
    rw [hrs]
    simp

/-- Helper: under passing expansion, validation and transport
construction, `Run` forwards the result of `runSet`: the error when one is
set, else the outcome. -/
lemma Run_valid_eq (w : HsiSet.RunWorld) (tgt : String)
    (params : HsiSet.InputStepParams)
    (hexp : w.expand = .ok params)
    (hproto : params.transport.proto = HsiSet.supportedProto)
    (hcred : ¬(params.parameter.password = "" ∧ params.parameter.keyPath = ""))
    (hopt : ¬(params.parameter.option = "" ∨ params.parameter.value = ""))
    (htr : w.newTransport = none) :
    HsiSet.Run w tgt =
      match (HsiSet.runSet w.proc tgt params).err with
      | some e => ⟨some e, (HsiSet.runSet w.proc tgt params).events, true⟩
      | none => ⟨(HsiSet.runSet w.proc tgt params).outcome,
          (HsiSet.runSet w.proc tgt params).events, true⟩ := by
  simp only [HsiSet.Run, hexp]
  rw [if_neg (fun hc => hc hproto), if_neg hcred, if_neg hopt, htr]

/-- C1: for every run whose expansion, validation and transport
construction succeed, the launch-failure path and the execution-result
path are mutually exclusive: the outcome and the error of `runSet` are
never both populated; a launch failure makes `Run` return that error with
no outcome and no events emitted; and when the launch succeeded and no
post-launch error was raised, `Run` returns exactly the single execution
result (the `Start`/`Wait` outcome, `nil` or a domain error). -/
theorem hsi_run_launch_vs_execution_c1 (w : HsiSet.RunWorld) (tgt : String)
    (params : HsiSet.InputStepParams)
    (hexp : w.expand = .ok params)
    (hproto : params.transport.proto = HsiSet.supportedProto)
    (hcred : ¬(params.parameter.password = "" ∧ params.parameter.keyPath = ""))
    (hopt : ¬(params.parameter.option = "" ∨ params.parameter.value = ""))
    (htr : w.newTransport = none) :
    (¬((HsiSet.runSet w.proc tgt params).outcome.isSome
        ∧ (HsiSet.runSet w.proc tgt params).err.isSome)) ∧
    (HsiSet.launchFailed w.proc params.parameter = true →
      ∃ e, HsiSet.runSet w.proc tgt params = ⟨none, some e, []⟩ ∧
        HsiSet.Run w tgt = ⟨some e, [], true⟩) ∧
    (HsiSet.launchFailed w.proc params.parameter = false →
      (HsiSet.runSet w.proc tgt params).err = none →
      HsiSet.Run w tgt = ⟨HsiSet.execOutcome w.proc,
        (HsiSet.runSet w.proc tgt params).events, true⟩) := by
  refine ⟨runSet_outcome_err_exclusive w.proc tgt params, ?_, ?_⟩
  · intro h
    obtain ⟨e, hrs⟩ := runSet_launchFailed_shape w.proc tgt params h
    refine ⟨e, hrs, ?_⟩
    rw [Run_valid_eq w tgt params hexp hproto hcred hopt htr, hrs]
  · intro hl he
    obtain ⟨h1, h2, h3⟩ := launchFailed_false_elim w.proc params.parameter hl
    rw [Run_valid_eq w tgt params hexp hproto hcred hopt htr, he]
    rw [runSet_launched_eq w.proc tgt params h1 h2 h3] at he ⊢
    rcases hp : HsiSet.parseSetOutput w.proc.unmarshal
        (HsiSet.capturedStderr w.proc) params.parameter.shallFail with _ | e
    · rcases he1 : HsiSet.emitEvent w.proc HsiSet.EventStdout
          (HsiSet.capturedStdout w.proc) tgt with _ | e
      · rcases he2 : HsiSet.emitEvent w.proc HsiSet.EventStderr
            (HsiSet.capturedStderr w.proc) tgt with _ | e
        · simp
        · rw [hp, he1, he2] at he
          simp at he
      · rw [hp, he1] at he
        simp at he
    · rw [hp] at he
      simp at he

/-- Witness for C1: a concrete run whose process construction fails
returns that launch error alone, with no outcome and no events. -/
theorem hsi_run_launch_vs_execution_c1_witness :
    ∃ e, HsiSet.runSet HsiSet.launchFailRunWorld.proc "t" HsiSet.sampleParams
        = ⟨none, some e, []⟩ ∧
      HsiSet.Run HsiSet.launchFailRunWorld "t" = ⟨some e, [], true⟩ :=
  (hsi_run_launch_vs_execution_c1 HsiSet.launchFailRunWorld "t"
    HsiSet.sampleParams rfl rfl (by decide) (by decide) rfl).2.1 rfl

/-- Counterexample to C3 as stated: a concrete run in which the remote
process was launched (no launch failure; start and wait both succeeded)
but the stderr parser detected a domain error, and `Run` returned that
error with NO events emitted — the code parses stderr before emitting, so
events are not emitted regardless of the classified outcome. -/
theorem hsi_run_events_on_domain_error_c3_cex :
    HsiSet.launchFailed HsiSet.domainErrWorld HsiSet.sampleParams.parameter
        = false ∧
    HsiSet.Run HsiSet.domainErrRunWorld "t"
        = ⟨some "flash write failed", [], true⟩ := by
  constructor
  · rfl
  · decide

/-- C3 (amended): for every run in which the remote process was launched
and the stderr parser reported no domain error, one event per captured
stream is emitted (stdout then stderr) with the raw captured text as
payload, tagged to the target, regardless of the process's execution
outcome, and a failure to emit either event causes `Run` to return an
error; when the parser reports a domain error, `Run` returns it without
emitting any event. -/
theorem hsi_run_events_c3_amended (w : HsiSet.RunWorld) (tgt : String)
    (params : HsiSet.InputStepParams)
    (hexp : w.expand = .ok params)
    (hproto : params.transport.proto = HsiSet.supportedProto)
    (hcred : ¬(params.parameter.password = "" ∧ params.parameter.keyPath = ""))
    (hopt : ¬(params.parameter.option = "" ∨ params.parameter.value = ""))
    (htr : w.newTransport = none)
    (hl : HsiSet.launchFailed w.proc params.parameter = false) :
    ((HsiSet.parseSetOutput w.proc.unmarshal (HsiSet.capturedStderr w.proc)
        params.parameter.shallFail = none →
      HsiSet.emitEvent w.proc HsiSet.EventStdout
        (HsiSet.capturedStdout w.proc) tgt = none →
      HsiSet.emitEvent w.proc HsiSet.EventStderr
        (HsiSet.capturedStderr w.proc) tgt = none →
      HsiSet.Run w tgt = ⟨HsiSet.execOutcome w.proc,
        [⟨HsiSet.EventStdout, tgt, HsiSet.capturedStdout w.proc⟩,
         ⟨HsiSet.EventStderr, tgt, HsiSet.capturedStderr w.proc⟩], true⟩)) ∧
    (∀ e, HsiSet.parseSetOutput w.proc.unmarshal (HsiSet.capturedStderr w.proc)
        params.parameter.shallFail = none →
      HsiSet.emitEvent w.proc HsiSet.EventStdout
        (HsiSet.capturedStdout w.proc) tgt = some e →
      HsiSet.Run w tgt = ⟨some ("cannot emit event: " ++ e), [], true⟩) ∧
    (∀ e, HsiSet.parseSetOutput w.proc.unmarshal (HsiSet.capturedStderr w.proc)
        params.parameter.shallFail = none →
      HsiSet.emitEvent w.proc HsiSet.EventStdout
        (HsiSet.capturedStdout w.proc) tgt = none →
      HsiSet.emitEvent w.proc HsiSet.EventStderr
        (HsiSet.capturedStderr w.proc) tgt = some e →
      HsiSet.Run w tgt = ⟨some ("cannot emit event: " ++ e),
        [⟨HsiSet.EventStdout, tgt, HsiSet.capturedStdout w.proc⟩], true⟩) ∧
    (∀ e, HsiSet.parseSetOutput w.proc.unmarshal (HsiSet.capturedStderr w.proc)
        params.parameter.shallFail = some e →
      HsiSet.Run w tgt = ⟨some e, [], true⟩) := by
  obtain ⟨h1, h2, h3⟩ := launchFailed_false_elim w.proc params.parameter hl
  rw [Run_valid_eq w tgt params hexp hproto hcred hopt htr,
      runSet_launched_eq w.proc tgt params h1 h2 h3]
  refine ⟨fun hp he1 he2 => ?_, fun e hp he1 => ?_, fun e hp he1 he2 => ?_,
    fun e hp => ?_⟩
  · rw [hp, he1, he2]
  · rw [hp, he1]
  · rw [hp, he1, he2]
  · rw [hp]

/-- Witness for C3 (amended): a fully successful concrete run emits the
stdout event then the stderr event, with the captured texts, and returns
the wait outcome (`nil`). -/
theorem hsi_run_events_c3_amended_witness :
    HsiSet.Run HsiSet.okRunWorld "t"
      = ⟨HsiSet.execOutcome HsiSet.okRunWorld.proc,
         [⟨HsiSet.EventStdout, "t", HsiSet.capturedStdout HsiSet.okRunWorld.proc⟩,
          ⟨HsiSet.EventStderr, "t", HsiSet.capturedStderr HsiSet.okRunWorld.proc⟩],
         true⟩ :=
  (hsi_run_events_c3_amended HsiSet.okRunWorld "t" HsiSet.sampleParams
    rfl rfl (by decide) (by decide) rfl rfl).1 rfl rfl rfl

/-- Counterexample to C4 as stated: parameters carrying BOTH a password
and a key path ("exactly one credential" is violated) pass validation
unchanged — `Run` proceeds to transport construction and process launch
and completes the run instead of returning a validation error. -/
theorem hsi_run_both_credentials_c4_cex :
    HsiSet.bothCredsParams.parameter.password ≠ "" ∧
    HsiSet.bothCredsParams.parameter.keyPath ≠ "" ∧
    HsiSet.Run HsiSet.bothCredsRunWorld "t"
      = ⟨none, [⟨HsiSet.EventStdout, "t", "settings applied"⟩,
                ⟨HsiSet.EventStderr, "t", ""⟩], true⟩ := by
  refine ⟨by decide, by decide, by decide⟩

/-- C4 (amended): `Run` validates protocol-specific preconditions before
any network action and fails fast: AT LEAST ONE of the password and
key-path credentials must be present (when both are present validation
passes and the password takes precedence), the option and value fields
must be non-empty, and only the protocol name ssh is accepted; any
violation returns an error with no events and before a transport is
constructed, and when all validations pass control reaches transport
construction. -/
theorem hsi_run_validation_c4_amended (w : HsiSet.RunWorld) (tgt : String)
    (params : HsiSet.InputStepParams)
    (hexp : w.expand = .ok params) :
    ((params.transport.proto ≠ HsiSet.supportedProto ∨
        (params.parameter.password = "" ∧ params.parameter.keyPath = "") ∨
        params.parameter.option = "" ∨ params.parameter.value = "") →
      (HsiSet.Run w tgt).ret.isSome = true ∧
        (HsiSet.Run w tgt).events = [] ∧
        (HsiSet.Run w tgt).transportAttempted = false) ∧
    ((params.transport.proto = HsiSet.supportedProto ∧
        ¬(params.parameter.password = "" ∧ params.parameter.keyPath = "") ∧
        params.parameter.option ≠ "" ∧ params.parameter.value ≠ "") →
      (HsiSet.Run w tgt).transportAttempted = true) := by
  constructor
  · intro h
    simp only [HsiSet.Run, hexp]
    by_cases h1 : params.transport.proto ≠ HsiSet.supportedProto
    · rw [if_pos h1]
      exact ⟨rfl, rfl, rfl⟩
    · rw [if_neg h1]
      by_cases h2 : params.parameter.password = ""
          ∧ params.parameter.keyPath = ""
      · rw [if_pos h2]
        exact ⟨rfl, rfl, rfl⟩
      · rw [if_neg h2]
        have h3 : params.parameter.option = "" ∨ params.parameter.value = "" := by
          rcases h with h | h | h | h
          · exact absurd h h1
          · exact absurd h h2
          · exact Or.inl h
          · exact Or.inr h
        rw [if_pos h3]
        exact ⟨rfl, rfl, rfl⟩
  · rintro ⟨hp, hc, ho, hv⟩
    simp only [HsiSet.Run, hexp]
    rw [if_neg (fun hh => hh hp), if_neg hc,
        if_neg (fun hh => by rcases hh with h | h; exacts [ho h, hv h])]
    cases htr : w.newTransport
    · cases hre : (HsiSet.runSet w.proc tgt params).err <;> simp [hre]
    · rfl

/-- Witness for C4 (amended): a concrete run with an empty option field
fails validation with an error, no events, and no transport construction. -/
theorem hsi_run_validation_c4_amended_witness :
    (HsiSet.Run HsiSet.noOptionRunWorld "t").ret.isSome = true ∧
    (HsiSet.Run HsiSet.noOptionRunWorld "t").events = [] ∧
    (HsiSet.Run HsiSet.noOptionRunWorld "t").transportAttempted = false :=
  (hsi_run_validation_c4_amended HsiSet.noOptionRunWorld "t"
    HsiSet.noOptionParams rfl).1 (Or.inr (Or.inr (Or.inl rfl)))

/-- Helper: a scheme that is http or https is non-empty and passes the
scheme checks of `request`. -/
lemma scheme_valid_elim (u : ConTestHTTP.GoURL)
    (h : u.scheme = "http" ∨ u.scheme = "https") :
    ¬u.scheme = "" ∧ ¬(u.scheme ≠ "http" ∧ u.scheme ≠ "https") := by
  rcases h with h | h <;> rw [h] <;> exact ⟨by decide, by decide⟩

/-- Helper: with a parsed base URL whose scheme fails validation,
`request` fails with the scheme error, for every verb and every parameter
set, and never reaches the network. -/
lemma request_bad_scheme (w : ConTestHTTP.HttpWorld)
    (addr requestor : String) (u : ConTestHTTP.GoURL)
    (hparse : w.parseURL addr = .ok u)
    (hbad : u.scheme = "" ∨ (u.scheme ≠ "http" ∧ u.scheme ≠ "https")) :
    ∀ verb params, ConTestHTTP.request w addr requestor verb params
      = ⟨.error (ConTestHTTP.schemeMsg u), false⟩ := by
  intro verb params
  simp only [ConTestHTTP.request, ConTestHTTP.schemeMsg, hparse]
  by_cases hs : u.scheme = ""
  · rw [if_pos hs, if_pos hs]
  · rcases hbad with h | h
    · exact absurd h hs
    · rw [if_neg hs, if_neg hs, if_pos h]

/-- Helper: with a valid scheme and a server that always answers a fixed
non-200 status with a body decoding to the structured error message `m`,
`request` returns, for every verb, an otherwise-zero response whose error
field wraps `m`. -/
lemma request_error_path (w : ConTestHTTP.HttpWorld)
    (addr requestor : String) (u : ConTestHTTP.GoURL) (code : Nat)
    (body m : String)
    (hparse : w.parseURL addr = .ok u)
    (hscheme : u.scheme = "http" ∨ u.scheme = "https")
    (hpost : ∀ url ps, w.postForm url ps = .ok ⟨code, .ok body⟩)
    (hcode : code ≠ 200)
    (hdec : w.decodeAPIError body = .ok m) :
    ∀ verb params, ConTestHTTP.request w addr requestor verb params
      = ⟨.ok ⟨"", "", "", some m⟩, true⟩ := by
  intro verb params
  obtain ⟨hs1, hs2⟩ := scheme_valid_elim u hscheme
  simp only [ConTestHTTP.request, hparse]
  rw [if_neg hs1, if_neg hs2, hpost]
  simp [hcode, hdec]

/-- Helper: with a valid scheme and a server that always answers 200 with
a body decoding to the partially decoded response `resp`, `request`
returns `resp`, for every verb. -/
lemma request_ok_path (w : ConTestHTTP.HttpWorld)
    (addr requestor : String) (u : ConTestHTTP.GoURL)
    (body : String) (resp : ConTestHTTP.PartialResp)
    (hparse : w.parseURL addr = .ok u)
    (hscheme : u.scheme = "http" ∨ u.scheme = "https")
    (hpost : ∀ url ps, w.postForm url ps = .ok ⟨200, .ok body⟩)
    (hdec : w.decodeResp body = .ok resp) :
    ∀ verb params, ConTestHTTP.request w addr requestor verb params
      = ⟨.ok resp, true⟩ := by
  intro verb params
  obtain ⟨hs1, hs2⟩ := scheme_valid_elim u hscheme
  simp only [ConTestHTTP.request, hparse]
  rw [if_neg hs1, if_neg hs2, hpost]
  simp [hdec]

/-- C6: for every HTTP API verb call, a configured base address whose
parsed URL has no scheme, or a scheme other than http or https, makes the
call fail with the scheme error before any network request is attempted
(the network oracle is never consulted). -/
theorem http_scheme_validated_c6 (w : ConTestHTTP.HttpWorld)
    (addr requestor jobDescriptor : String) (jobID : Int)
    (states tags : List String) (u : ConTestHTTP.GoURL)
    (hparse : w.parseURL addr = .ok u)
    (hbad : u.scheme = "" ∨ (u.scheme ≠ "http" ∧ u.scheme ≠ "https")) :
    (∀ verb params,
      (ConTestHTTP.request w addr requestor verb params).posted = false) ∧
    ConTestHTTP.Version w addr requestor
      = .error (ConTestHTTP.schemeMsg u) ∧
    ConTestHTTP.Start w addr requestor jobDescriptor
      = .error (ConTestHTTP.schemeMsg u) ∧
    ConTestHTTP.Stop w addr requestor jobID
      = .error (ConTestHTTP.schemeMsg u) ∧
    ConTestHTTP.Status w addr requestor jobID
      = .error (ConTestHTTP.schemeMsg u) ∧
    ConTestHTTP.Retry w addr requestor jobID
      = .error (ConTestHTTP.schemeMsg u) ∧
    ConTestHTTP.ListJobs w addr requestor states tags
      = .error (ConTestHTTP.schemeMsg u) := by
  have hreq := request_bad_scheme w addr requestor u hparse hbad
  refine ⟨fun verb params => by rw [hreq], ?_, ?_, ?_, ?_, ?_, ?_⟩
  · unfold ConTestHTTP.Version
    rw [hreq]
  · unfold ConTestHTTP.Start
    rw [hreq]
  · unfold ConTestHTTP.Stop
    rw [hreq]
  · unfold ConTestHTTP.Status
    rw [hreq]
  · unfold ConTestHTTP.Retry
    rw [hreq]
  · unfold ConTestHTTP.ListJobs
    rw [hreq]

/-- Witness for C6: the base address `example.com` parses with an empty
scheme; the version call fails with the scheme-missing error and the
network is never consulted. -/
theorem http_scheme_validated_c6_witness :
    (ConTestHTTP.request ConTestHTTP.noSchemeWorld "example.com" "req"
        "version" []).posted = false ∧
    ConTestHTTP.Version ConTestHTTP.noSchemeWorld "example.com" "req"
      = .error "server URL scheme not specified" := by
  have h := http_scheme_validated_c6 ConTestHTTP.noSchemeWorld "example.com"
    "req" "jd" 1 [] [] ⟨"", "example.com"⟩ rfl (Or.inl rfl)
  exact ⟨h.1 "version" [], h.2.1⟩

/-- C5: for every HTTP API verb call against a server answering a non-200
status with a body shaped as the structured error object with message
`m`, the call returns successfully at the transport level with a response
whose error field wraps `m` and whose typed data is the verb's zero value
(no typed data populated). -/
theorem http_error_body_wrapped_c5 (w : ConTestHTTP.HttpWorld)
    (addr requestor jobDescriptor : String) (jobID : Int)
    (states tags : List String) (u : ConTestHTTP.GoURL) (code : Nat)
    (body m : String)
    (hparse : w.parseURL addr = .ok u)
    (hscheme : u.scheme = "http" ∨ u.scheme = "https")
    (hpost : ∀ url ps, w.postForm url ps = .ok ⟨code, .ok body⟩)
    (hcode : code ≠ 200)
    (hdec : w.decodeAPIError body = .ok m) :
    ConTestHTTP.Version w addr requestor
      = .ok ⟨"", ConTestHTTP.zeroDataVersion, some m⟩ ∧
    ConTestHTTP.Start w addr requestor jobDescriptor
      = .ok ⟨"", ConTestHTTP.zeroDataStart, some m⟩ ∧
    ConTestHTTP.Stop w addr requestor jobID
      = .ok ⟨"", ConTestHTTP.zeroDataStop, some m⟩ ∧
    ConTestHTTP.Status w addr requestor jobID
      = .ok ⟨"", ConTestHTTP.zeroDataStatus, some m⟩ ∧
    ConTestHTTP.Retry w addr requestor jobID
      = .ok ⟨"", ConTestHTTP.zeroDataRetry, some m⟩ ∧
    ConTestHTTP.ListJobs w addr requestor states tags
      = .ok ⟨"", ConTestHTTP.zeroDataList, some m⟩ := by
  have hreq := request_error_path w addr requestor u code body m hparse
    hscheme hpost hcode hdec
  refine ⟨?_, ?_, ?_, ?_, ?_, ?_⟩
  · unfold ConTestHTTP.Version
    rw [hreq]
    rfl
  · unfold ConTestHTTP.Start
    rw [hreq]
    rfl
  · unfold ConTestHTTP.Stop
    rw [hreq]
    rfl
  · unfold ConTestHTTP.Status
    rw [hreq]
    rfl
  · unfold ConTestHTTP.Retry
    rw [hreq]
    rfl
  · unfold ConTestHTTP.ListJobs
    rw [hreq]
    rfl

/-- Witness for C5: a concrete 500 answer with message `job not found`
surfaces through the status call as the wrapped domain error with zero
typed data. -/
theorem http_error_body_wrapped_c5_witness :
    ConTestHTTP.Status ConTestHTTP.error500World "http://server" "req" 42
      = .ok ⟨"", ConTestHTTP.zeroDataStatus, some "job not found"⟩ :=
  (http_error_body_wrapped_c5 ConTestHTTP.error500World "http://server"
    "req" "jd" 42 [] [] ⟨"http", "http://server"⟩ 500 "errbody"
    "job not found" rfl (Or.inl rfl) (fun _ _ => rfl) (by decide)
    rfl).2.2.2.1

/-- C10: for every HTTP API verb method, a 200 answer whose decoded
response carries an empty `Data` field yields the zero value of the
verb's typed data together with the response's server identifier and
error, with no decode error — the `Data` decode oracles are never
consulted (the theorem holds for every world, including those whose data
decoders always fail). -/
theorem http_empty_data_zero_c10 (w : ConTestHTTP.HttpWorld)
    (addr requestor jobDescriptor : String) (jobID : Int)
    (states tags : List String) (u : ConTestHTTP.GoURL)
    (body : String) (resp : ConTestHTTP.PartialResp)
    (hparse : w.parseURL addr = .ok u)
    (hscheme : u.scheme = "http" ∨ u.scheme = "https")
    (hpost : ∀ url ps, w.postForm url ps = .ok ⟨200, .ok body⟩)
    (hdec : w.decodeResp body = .ok resp)
    (hdata : resp.data = "") :
    ConTestHTTP.Version w addr requestor
      = .ok ⟨resp.serverID, ConTestHTTP.zeroDataVersion, resp.err⟩ ∧
    ConTestHTTP.Start w addr requestor jobDescriptor
      = .ok ⟨resp.serverID, ConTestHTTP.zeroDataStart, resp.err⟩ ∧
    ConTestHTTP.Stop w addr requestor jobID
      = .ok ⟨resp.serverID, ConTestHTTP.zeroDataStop, resp.err⟩ ∧
    ConTestHTTP.Status w addr requestor jobID
      = .ok ⟨resp.serverID, ConTestHTTP.zeroDataStatus, resp.err⟩ ∧
    ConTestHTTP.Retry w addr requestor jobID
      = .ok ⟨resp.serverID, ConTestHTTP.zeroDataRetry, resp.err⟩ ∧
    ConTestHTTP.ListJobs w addr requestor states tags
      = .ok ⟨resp.serverID, ConTestHTTP.zeroDataList, resp.err⟩ := by
  have hreq := request_ok_path w addr requestor u body resp hparse
    hscheme hpost hdec
  refine ⟨?_, ?_, ?_, ?_, ?_, ?_⟩
  · unfold ConTestHTTP.Version
    rw [hreq]
    simp [hdata]
  · unfold ConTestHTTP.Start
    rw [hreq]
    simp [hdata]
  · unfold ConTestHTTP.Stop
    rw [hreq]
    simp [hdata]
  · unfold ConTestHTTP.Status
    rw [hreq]
    simp [hdata]
  · unfold ConTestHTTP.Retry
    rw [hreq]
    simp [hdata]
  · unfold ConTestHTTP.ListJobs
    rw [hreq]
    simp [hdata]

/-- Witness for C10: a concrete 200 answer with empty `Data`, over a
world whose data decoders all fail, still yields the zero version data
with the decoded server identifier. -/
theorem http_empty_data_zero_c10_witness :
    ConTestHTTP.Version ConTestHTTP.emptyDataWorld "https://server" "req"
      = .ok ⟨"server1", ConTestHTTP.zeroDataVersion, none⟩ :=
  (http_empty_data_zero_c10 ConTestHTTP.emptyDataWorld "https://server"
    "req" "jd" 7 [] [] ⟨"https", "https://server"⟩ "okbody"
    ConTestHTTP.emptyDataResp rfl (Or.inr rfl) (fun _ _ => rfl) rfl rfl).1
